import Mathlib

/-!
Verification of the primer candidate evaluation and qualification engine of
`crispr_primer.py` (CRISPR cut-site primer design).

The Python functions are shallowly embedded as executable Lean definitions:

* Python `str` values become `String`; helper functions (`pySplit`, `pyUpper`,
  `pyReverse`, `pyTakeLast`, `pyTake`, `pyIn`, `pySlice`, `pyInt`, `pyFloat`)
  mirror the exact Python string operations used by the source
  (`s.split(c)`, `s.upper()`, `s[::-1]`, `s[-n:]`, `s[:n]`, `a in b`,
  `s[a:b]`, `int(s)`, `float(s)`).  `pyFloat` covers the plain signed decimal
  literals that actually flow through this program; Python floats are modelled
  as exact rationals (`ℚ`).
* Fallible Python code (KeyError / ValueError / IndexError /
  ZeroDivisionError) is modelled with `Option` / `Except String`.
* The candidate dictionary built by `parse_primer3_results` becomes the
  `Candidate` structure; `ispcr_count` is read in the source with
  `parsed.get('ispcr_count', 0)`, so a missing key is identical to the value
  `0` and the field defaults to `0`.
* The two external tools (primer3 and the gfPcr in-silico-PCR server) are
  abstracted as oracle parameters: `primer3Out` gives the raw primer3
  key=value output for a window size, and `annotate` stands for
  `get_ispcr_results` (it attaches `ispcr_count` to each candidate).
* Diagnostic `print` calls and the module-level `ispcr_return` list have no
  bearing on control flow or return values and are not modelled; the
  `left_end` / `chromosome` fields attached to results in `get_top_primers`
  are output-formatting metadata never read by the qualifier and are likewise
  omitted.
-/

namespace CrisprPrimer

/-! ### Python string/number primitives -/

/-- Python `s.split(sep)` for a single-character separator, on `List Char`.
`"".split(sep) == [""]`, and separators at the ends produce empty pieces,
exactly as in Python. -/
def splitCharList (sep : Char) (l : List Char) : List (List Char) :=
  l.foldr
    (fun c acc =>
      match acc with
      | [] => [[c]]
      | r :: rs => if c = sep then [] :: (r :: rs) else (c :: r) :: rs)
    [[]]

/-- Python `s.split(sep)` (single-character separator) on `String`. -/
def pySplit (sep : Char) (s : String) : List String :=
  (splitCharList sep s.data).map String.mk

/-- Python `s.upper()` (the program only ever holds ASCII). -/
def pyUpper (s : String) : String := ⟨s.data.map Char.toUpper⟩

/-- Python `s[::-1]`. -/
def pyReverse (s : String) : String := ⟨s.data.reverse⟩

/-- Python `s[-n:]` for `n > 0`: the last `n` characters (all of `s` when
`s` is shorter than `n`). -/
def pyTakeLast (n : Nat) (s : String) : String :=
  ⟨s.data.drop (s.data.length - n)⟩

/-- Python `s[:n]` for `n ≥ 0`. -/
def pyTake (n : Nat) (s : String) : String := ⟨s.data.take n⟩

/-- Python `a in b` for strings: contiguous-substring test (the empty string
is a substring of everything). -/
def pyIn (a b : String) : Bool :=
  b.data.tails.any (fun t => a.data.isPrefixOf t)

/-- Normalise one bound of a Python slice `s[a:b]` to an index into `s`. -/
def pySliceIdx (n : Nat) (i : Int) : Nat :=
  if i < 0 then (i + n).toNat else min i.toNat n

/-- Python `s[a:b]` with full negative-index and clamping semantics. -/
def pySlice (s : String) (a b : Int) : String :=
  let n := s.data.length
  let a1 := pySliceIdx n a
  let b1 := pySliceIdx n b
  ⟨(s.data.drop a1).take (b1 - a1)⟩

/-- The numeric value of a non-empty list of decimal digits; `none` when the
list is empty or contains a non-digit. -/
def digitsToNat : List Char → Option Nat
  | [] => none
  | l =>
    l.foldl
      (fun acc c =>
        acc.bind (fun a => if c.isDigit then some (a * 10 + (c.toNat - 48)) else none))
      (some 0)

/-- Unsigned part of Python `float(s)`: `"60"`, `"60.0"`, `".5"`, `"5."` are
accepted, `""`, `"."`, `"5.1.2"` are not. -/
def parseUnsignedFloat (body : List Char) : Option ℚ :=
  match splitCharList '.' body with
  | [ip] => (digitsToNat ip).map (fun v => (v : ℚ))
  | [ip, fp] =>
    if ip.isEmpty && fp.isEmpty then none
    else
      match (if ip.isEmpty then some 0 else digitsToNat ip),
            (if fp.isEmpty then some 0 else digitsToNat fp) with
      | some a, some b => some ((a : ℚ) + (b : ℚ) / ((10 : ℚ) ^ fp.length))
      | _, _ => none
  | _ => none

/-- Signed part of Python `float(s)`. -/
def parseSignedFloat : List Char → Option ℚ
  | '-' :: r => (parseUnsignedFloat r).map (fun q => -q)
  | '+' :: r => parseUnsignedFloat r
  | r => parseUnsignedFloat r

/-- Python `float(s)` on the plain decimal literals this program produces,
raising `ValueError` otherwise. -/
def pyFloat (s : String) : Except String ℚ :=
  match parseSignedFloat s.data with
  | some q => .ok q
  | none => .error ("ValueError: could not convert string to float: " ++ s)

/-- Signed decimal integer, as accepted by Python `int(s)`. -/
def parseSignedInt : List Char → Option Int
  | '-' :: r => (digitsToNat r).map (fun v => -(v : Int))
  | '+' :: r => (digitsToNat r).map (fun v => (v : Int))
  | r => (digitsToNat r).map (fun v => (v : Int))

/-- Python `int(s)`, raising `ValueError` on malformed input. -/
def pyInt (s : String) : Except String Int :=
  match parseSignedInt s.data with
  | some v => .ok v
  | none => .error ("ValueError: invalid literal for int() with base 10: " ++ s)

/-! ### Source constants (crispr_primer.py lines 30-56) -/

def IDEAL_TM_MIN : ℚ := 55
def IDEAL_TM_MAX : ℚ := 65
def IDEAL_PRIMER_LEN_MIN : Nat := 18
def IDEAL_PRIMER_LEN_MAX : Nat := 25
def IDEAL_AMPLICON_GC_MIN : ℚ := 30
def IDEAL_AMPLICON_GC_MAX : ℚ := 75
def IDEAL_HOMOPOLY_MAX : Nat := 4

def ACCEPTABLE_AMPLICON_GC_MIN : ℚ := 25
def ACCEPTABLE_AMPLICON_GC_MAX : ℚ := 75
def ACCEPTABLE_HOMOPOLY_MAX : Nat := 5

def LEFT_TAG : String := "CTACACGACGCTCTTCCGATCT"
def RIGHT_TAG : String := "AGACGTGTGCTCTTCCGATCT"

def LOW_COMPLEXITY_CHECK_N : Nat := 10

/-- `CODE_IDEAL = 1` -/
def CODE_IDEAL : Option Nat := some 1
/-- `CODE_ACCEPTABLE = 2` -/
def CODE_ACCEPTABLE : Option Nat := some 2
/-- `CODE_NQ = None` -/
def CODE_NQ : Option Nat := none

/-- `primer3_settings_file_dict` (lines 71-73): the fixed table of window
sizes with primer3 configuration presets. -/
def primer3_settings_file_dict : List (Nat × String) :=
  [(40, "primer3_settings_250-260.cnf"), (50, "primer3_settings_260-270.cnf"),
   (60, "primer3_settings_270-280.cnf"), (70, "primer3_settings_280-290.cnf"),
   (80, "primer3_settings_290-300.cnf"), (90, "primer3_settings_300-310.cnf")]

/-- Python `primer3_settings_file_dict[search_range]` as an `Option`
(`none` = `KeyError`). -/
def settingsLookup (search_range : Nat) : Option String :=
  (primer3_settings_file_dict.find? (fun p => p.1 == search_range)).map Prod.snd

/-! ### Sequence utilities -/

/-- `seq_map` of `complementary_sequence` (line 218): Watson-Crick complement
of one base, `none` = `KeyError`. -/
def compBase (c : Char) : Option Char :=
  if c = 'A' then some 'T'
  else if c = 'T' then some 'A'
  else if c = 'C' then some 'G'
  else if c = 'G' then some 'C'
  else none

/-- The character-building loop of `complementary_sequence`: left to right,
raising `KeyError` at the first base outside the map. -/
def compList : List Char → Except String (List Char)
  | [] => .ok []
  | c :: rest =>
    match compBase c with
    | none => .error ("KeyError: " ++ String.mk [c])
    | some d =>
      match compList rest with
      | .error e => .error e
      | .ok r => .ok (d :: r)

/-- `complementary_sequence(seq)` (lines 217-223): uppercase the input, then
map every base through `seq_map`; `KeyError` on a base outside {A,C,G,T}. -/
def complementary_sequence (seq : String) : Except String String :=
  match compList (pyUpper seq).data with
  | .error e => .error e
  | .ok l => .ok (String.mk l)

/-- The scanning loop of `get_poly_max` (lines 231-240): `current` is the
base of the current run, `cnt` its length so far, `pm` the best finished
run. -/
def polyLoop : List Char → Char → Nat → Nat → Nat
  | [], _, cnt, pm => max pm cnt
  | c :: rest, current, cnt, pm =>
    if c = current then polyLoop rest current (cnt + 1) pm
    else polyLoop rest c 1 (max pm cnt)

/-- `get_poly_max(sequence)` (lines 226-241): longest homopolymer run,
case-insensitive; `none` = `IndexError` on the empty string
(`sequence[0]`). -/
def get_poly_max (sequence : String) : Option Nat :=
  match (pyUpper sequence).data with
  | [] => none
  | c :: rest => some (polyLoop rest c 1 0)

/-- `get_gc_pct(sequence)` (lines 244-250): percentage of G/C bases,
case-insensitive; `none` = `ZeroDivisionError` on the empty string. -/
def get_gc_pct (sequence : String) : Option ℚ :=
  if sequence.data.length = 0 then none
  else
    let n : ℚ := sequence.data.length
    let p : ℚ := ((pyUpper sequence).data.countP (fun c => c == 'G' || c == 'C') : Nat)
    some (p / n * 100)

/-- The low-complexity scan of lines 149-152: Python returns `CODE_NQ` as
soon as one character `c.islower()`; that fires iff some character is
lowercase. -/
def anyLower (l : List Char) : Bool := l.any (fun c => c.isLower)

/-! ### Candidate records -/

/-- One parsed primer3 primer-pair record: the keys that
`parse_primer3_results` stores in the `parsed` dictionary, with the
post-hoc `ispcr_count` annotation (absent key ≡ 0, cf. `parsed.get`). -/
structure Candidate where
  left_primer : String := ""
  right_primer : String := ""
  left_primer_loc : String := ""
  right_primer_loc : String := ""
  left_tm : String := ""
  right_tm : String := ""
  left_primer_gc : String := ""
  right_primer_gc : String := ""
  product_size : String := ""
  product_loc : String := ""
  product : String := ""
  sequence : String := ""
  ispcr_count : Nat := 0
  deriving DecidableEq, Repr

/-! ### The candidate qualifier -/

/-- `check_primer3_result(parsed)` (lines 131-205).  The returned Python
code (`1` ideal / `2` acceptable / `None` not qualified) is `Option Nat`;
an uncaught Python exception is `Except.error`.  The mutable `ret_code`
is threaded through `ret_code0` … `ret_code6`. -/
def checkPrimer3Result (parsed : Candidate) : Except String (Option Nat) :=
  let left_primer := parsed.left_primer
  let right_primer := parsed.right_primer
  -- line 135: product_loc = int(parsed['product_loc'].split(',')[0])
  match pyInt ((pySplit ',' parsed.product_loc).headD "") with
  | .error e => .error e
  | .ok _product_loc =>
  -- line 136: product_size = int(parsed['product_size'])
  match pyInt parsed.product_size with
  | .error e => .error e
  | .ok _product_size =>
  -- lines 140-144: specificity (ispcr/BLAT match count must be exactly 1)
  if parsed.ispcr_count ≠ 1 then .ok CODE_NQ
  else
  -- lines 147-152: low-complexity check of the last 10 bases of each primer
  let left_3end := pyTakeLast LOW_COMPLEXITY_CHECK_N left_primer
  let right_3end := pyTakeLast LOW_COMPLEXITY_CHECK_N right_primer
  if anyLower (left_3end ++ right_3end).data then .ok CODE_NQ
  else
  -- lines 155-156: 3'-end 4-mers
  match complementary_sequence (pyTakeLast 4 left_primer) with
  | .error e => .error e
  | .ok last_4_left_com =>
  match complementary_sequence (pyTake 4 (pyReverse right_primer)) with
  | .error e => .error e
  | .ok last_4_right_com =>
  -- lines 157-160: self-binding against the partner primer
  if pyIn last_4_left_com (pyUpper (pyReverse right_primer)) then .ok CODE_NQ
  else if pyIn last_4_right_com (pyUpper left_primer) then .ok CODE_NQ
  -- lines 162-165: self-binding against the same primer
  else if pyIn last_4_left_com (pyUpper left_primer) then .ok CODE_NQ
  else if pyIn last_4_right_com (pyUpper (pyReverse right_primer)) then .ok CODE_NQ
  -- lines 168-171: self-binding against the sequencing adapter tags
  else if pyIn last_4_left_com (pyUpper (pyReverse (RIGHT_TAG ++ right_primer))) then .ok CODE_NQ
  else if pyIn last_4_right_com (pyUpper (LEFT_TAG ++ left_primer)) then .ok CODE_NQ
  else
  -- lines 174-179: amplicon GC%
  match get_gc_pct parsed.product with
  | none => .error "ZeroDivisionError: float division by zero"
  | some amplicon_gc_pct =>
  if amplicon_gc_pct < ACCEPTABLE_AMPLICON_GC_MIN ∨ amplicon_gc_pct > ACCEPTABLE_AMPLICON_GC_MAX
  then .ok CODE_NQ
  else
  let ret_code0 := CODE_IDEAL
  let ret_code1 :=
    if amplicon_gc_pct < IDEAL_AMPLICON_GC_MIN ∨ amplicon_gc_pct > IDEAL_AMPLICON_GC_MAX
    then CODE_ACCEPTABLE else ret_code0
  -- lines 182-187: homopolymer runs (left evaluated before right)
  match get_poly_max left_primer with
  | none => .error "IndexError: string index out of range"
  | some poly_left =>
  match get_poly_max right_primer with
  | none => .error "IndexError: string index out of range"
  | some poly_right =>
  let poly_max := max poly_left poly_right
  if poly_max > ACCEPTABLE_HOMOPOLY_MAX then .ok CODE_NQ
  else
  let ret_code2 := if poly_max > IDEAL_HOMOPOLY_MAX then CODE_ACCEPTABLE else ret_code1
  -- lines 190-193: melting temperatures
  match pyFloat parsed.left_tm with
  | .error e => .error e
  | .ok left_tm =>
  let ret_code3 :=
    if left_tm < IDEAL_TM_MIN ∨ left_tm > IDEAL_TM_MAX then CODE_ACCEPTABLE else ret_code2
  match pyFloat parsed.right_tm with
  | .error e => .error e
  | .ok right_tm =>
  let ret_code4 :=
    if right_tm < IDEAL_TM_MIN ∨ right_tm > IDEAL_TM_MAX then CODE_ACCEPTABLE else ret_code3
  -- lines 196-202: primer sizes
  let left_size := left_primer.length
  let right_size := right_primer.length
  let ret_code5 :=
    if left_size < IDEAL_PRIMER_LEN_MIN ∨ left_size > IDEAL_PRIMER_LEN_MAX
    then CODE_ACCEPTABLE else ret_code4
  let ret_code6 :=
    if right_size < IDEAL_PRIMER_LEN_MIN ∨ right_size > IDEAL_PRIMER_LEN_MAX
    then CODE_ACCEPTABLE else ret_code5
  .ok ret_code6

/-! ### The primer3 output parser -/

/-- Python `%`-formatting restricted to the single `%d` placeholder used by
`PRIMER3_KEY_MAP` (`name % i`). -/
def fmtD : List Char → Nat → List Char
  | [], _ => []
  | '%' :: 'd' :: rest, i => (toString i).data ++ fmtD rest i
  | c :: rest, i => c :: fmtD rest i

/-- `name % i` on `String`. -/
def fmtS (template : String) (i : Nat) : String := String.mk (fmtD template.data i)

/-- The `kv_hash` building loop of `parse_primer3_results` (lines 318-324):
lines shorter than 3 characters are skipped, every other line must be
exactly `key=value` (Python tuple unpacking raises `ValueError` otherwise).
New entries are prepended so that a later assignment to the same key wins
on lookup, like a Python dict update. -/
def buildKvHash (acc : List (String × String)) : List String → Except String (List (String × String))
  | [] => .ok acc
  | line :: rest =>
    if line.data.length < 3 then buildKvHash acc rest
    else
      match pySplit '=' line with
      | [key, val] => buildKvHash ((key, val) :: acc) rest
      | _ => .error ("ValueError: unpack " ++ line)

/-- Python `kv_hash[key]`: `KeyError` identifying the key when absent. -/
def dictGet (kv : List (String × String)) (k : String) : Except String String :=
  match kv.find? (fun p => p.1 == k) with
  | some p => .ok p.2
  | none => .error ("KeyError: " ++ k)

/-- One iteration of the `for i in range(num_pairs)` loop of
`parse_primer3_results` (lines 329-340): the nine `PRIMER3_KEY_MAP` lookups
in dict insertion order, then the amplicon derivation. -/
def parsePair (kv : List (String × String)) (sequence : String) (i : Nat) :
    Except String Candidate := do
  let left_primer ← dictGet kv (fmtS "PRIMER_LEFT_%d_SEQUENCE" i)
  let right_primer ← dictGet kv (fmtS "PRIMER_RIGHT_%d_SEQUENCE" i)
  let left_primer_loc ← dictGet kv (fmtS "PRIMER_LEFT_%d" i)
  let right_primer_loc ← dictGet kv (fmtS "PRIMER_RIGHT_%d" i)
  let left_tm ← dictGet kv (fmtS "PRIMER_LEFT_%d_TM" i)
  let right_tm ← dictGet kv (fmtS "PRIMER_RIGHT_%d_TM" i)
  let left_primer_gc ← dictGet kv (fmtS "PRIMER_LEFT_%d_GC_PERCENT" i)
  let right_primer_gc ← dictGet kv (fmtS "PRIMER_RIGHT_%d_GC_PERCENT" i)
  let product_size ← dictGet kv (fmtS "PRIMER_PAIR_%d_PRODUCT_SIZE" i)
  -- line 335: left_idx = int(parsed['left_primer_loc'].split(',')[0])
  let left_idx ← pyInt ((pySplit ',' left_primer_loc).headD "")
  -- line 336: right_idx = left_idx + int(parsed['product_size'])
  let psize ← pyInt product_size
  let right_idx := left_idx + psize
  -- line 337: parsed['product_loc'] = "%d,%d" % (left_idx, int(product_size))
  let product_loc := toString left_idx ++ "," ++ toString psize
  -- line 338: parsed['product'] = sequence[left_idx:right_idx]
  let product := pySlice sequence left_idx right_idx
  return { left_primer, right_primer, left_primer_loc, right_primer_loc,
           left_tm, right_tm, left_primer_gc, right_primer_gc,
           product_size, product_loc, product, sequence, ispcr_count := 0 }

/-- The `for i in range(num_pairs)` loop, ascending, first failure wins. -/
def parseLoop (kv : List (String × String)) (sequence : String) :
    List Nat → Except String (List Candidate)
  | [] => .ok []
  | i :: rest => do
    let c ← parsePair kv sequence i
    let cs ← parseLoop kv sequence rest
    return c :: cs

/-- `parse_primer3_results(primer3_output)` (lines 316-341). -/
def parsePrimer3Results (primer3_output : String) : Except String (List Candidate) := do
  let lines := pySplit '\n' primer3_output
  let kv_hash ← buildKvHash [] lines
  -- lines 325-327 (SEQUENCE_TARGET is read but unused; a missing key still raises)
  let sequence ← dictGet kv_hash "SEQUENCE_TEMPLATE"
  let _sequence_target ← dictGet kv_hash "SEQUENCE_TARGET"
  let num_pairs_str ← dictGet kv_hash "PRIMER_PAIR_NUM_RETURNED"
  let num_pairs ← pyInt num_pairs_str
  parseLoop kv_hash sequence (List.range num_pairs.toNat)

/-! ### The search-window controller -/

/-- The classification loop of `get_top_primers` (lines 116-127): return the
first `CODE_IDEAL` candidate at once, collect `CODE_ACCEPTABLE` ones in
order, and after the loop return the first acceptable if any;
`.ok none` means the caller falls through to the widened retry
(line 128).  An exception from `check_primer3_result` propagates. -/
def getTopPrimersSelect : List Candidate → List Candidate → Except String (Option Candidate)
  | [], acceptable => .ok acceptable.head?
  | parsed :: rest, acceptable =>
    match checkPrimer3Result parsed with
    | .error e => .error e
    | .ok code =>
      if code = CODE_IDEAL then .ok (some parsed)
      else if code = CODE_ACCEPTABLE then getTopPrimersSelect rest (acceptable ++ [parsed])
      else getTopPrimersSelect rest acceptable

/-- `get_top_primers(...)` (lines 75-128), with the two external tools
abstracted as oracles: `primer3Out w` is the raw primer3 output for window
size `w` (the subprocess of lines 84-107 for the fixed locus), and
`annotate w` stands for `get_ispcr_results` (line 108), attaching
`ispcr_count` to the parsed candidates.  Returns the Python return value
(`none` = Python `None`, i.e. search exhausted) paired with the trace of
window sizes at which the primer3 oracle was actually invoked.
Control flow mirrors the source exactly: the sentinel `search_range == 100`
returns `None` before any oracle call (line 78); a missing
`primer3_settings_file_dict` key raises before any oracle call (line 82);
any exception out of parsing or qualification propagates; otherwise a
qualifying candidate is returned or the search recurses at
`search_range + 10` (line 128). -/
def getTopPrimers (primer3Out : Nat → String)
    (annotate : Nat → List Candidate → List Candidate) (search_range : Nat) :
    Except String (Option Candidate) × List Nat :=
  if search_range = 100 then (.ok none, [])
  else
    match hs : settingsLookup search_range with
    | none => (.error "KeyError: primer3_settings_file_dict", [])
    | some _file =>
      match parsePrimer3Results (primer3Out search_range) with
      | .error e => (.error e, [search_range])
      | .ok parsed_results =>
        match getTopPrimersSelect (annotate search_range parsed_results) [] with
        | .error e => (.error e, [search_range])
        | .ok (some best) => (.ok (some best), [search_range])
        | .ok none =>
          let r := getTopPrimers primer3Out annotate (search_range + 10)
          (r.1, search_range :: r.2)
termination_by 100 - search_range
decreasing_by
  have h90 : search_range ≤ 90 := by
    cases hf : primer3_settings_file_dict.find? (fun p => p.1 == search_range) with
    | none => simp [settingsLookup, hf] at hs
    | some a =>
      have ha : a.1 = search_range := by simpa using List.find?_some hf
      have hmem : a ∈ primer3_settings_file_dict := List.mem_of_find?_eq_some hf
      fin_cases hmem <;> omega
  omega

/-! ### Spec-side selection (for the refinement claim C5) -/

/-- `true` iff the qualifier returned exactly the given Python code. -/
def resIs (r : Except String (Option Nat)) (code : Option Nat) : Bool :=
  match r with
  | .ok c => decide (c = code)
  | .error _ => false

/-- Stated from the spec's words (§3 "A batch of Candidates, once
classified, yields at most one IDEAL winner (first encountered) or the
first ACCEPTABLE if no IDEAL exists"), to be compared with
`getTopPrimersSelect`. -/
def firstIdealElseFirstAcceptable (l : List Candidate) : Option Candidate :=
  match l.find? (fun c => resIs (checkPrimer3Result c) CODE_IDEAL) with
  | some w => some w
  | none => l.find? (fun c => resIs (checkPrimer3Result c) CODE_ACCEPTABLE)

/-! ### Concrete candidates used as witnesses and counterexamples -/

/-- A candidate that satisfies every ideal rule: unique in-silico-PCR match,
no masked bases, no self-binding 4-mer hits, amplicon GC% = 50, longest
homopolymer run 2 in both primers, both melting temperatures 60.0, primer
lengths 18 and 19. -/
def cIdeal : Candidate :=
  { left_primer := "GACCAGGACAGGACATAT", right_primer := "GTGGATGGTAGTGGACAGT",
    left_tm := "60.0", right_tm := "60.0",
    product_size := "16", product_loc := "0,16",
    product := "AACCGGTTAACCGGTT", ispcr_count := 1 }

/-- `cIdeal` with two in-silico-PCR matches. -/
def cIspcr2 : Candidate := { cIdeal with ispcr_count := 2 }

/-- `cIdeal` whose amplicon GC% is 28 (7 G/C in 25 bases) and whose left
primer has a homopolymer run of 6. -/
def cDownDisq : Candidate :=
  { cIdeal with left_primer := "GAGGGGGGACAGGACATAT",
                product := "GGGGGGGAAAAAAAAAAAAAAAAAA" }

/-- `cIdeal` with amplicon GC% = 20. -/
def cGc20 : Candidate := { cIdeal with product := "GAAAT" }
/-- `cIdeal` with amplicon GC% = 28. -/
def cGc28 : Candidate := { cIdeal with product := "GGGGGGGAAAAAAAAAAAAAAAAAA" }
/-- `cIdeal` with amplicon GC% = 25. -/
def cGc25 : Candidate := { cIdeal with product := "GAAT" }
/-- `cIdeal` with amplicon GC% = 75. -/
def cGc75 : Candidate := { cIdeal with product := "GGCA" }
/-- `cIdeal` with amplicon GC% = 30. -/
def cGc30 : Candidate := { cIdeal with product := "GGGAAAAAAT" }

/-- Like `cIdeal` but the right primer ends in `GGCT`, so its 3'-end 4-mer
complement is `AGCC`, which occurs in the *reversal* of
`LEFT_TAG ++ left_primer` (because `CCGA` occurs in `LEFT_TAG`) but not in
the unreversed concatenation. -/
def cC8 : Candidate := { cIdeal with right_primer := "GTGGATGGTAGTGGAGGCT" }

/-- Like `cIdeal` but the right primer ends in `TCGG`, so its 3'-end 4-mer
complement is `CCGA`, which occurs (unreversed) in
`LEFT_TAG ++ left_primer`. -/
def cC8w : Candidate := { cIdeal with right_primer := "GTGGATGGTAGTGGATCGG" }

/-! ### Oracle mocks for the controller claims -/

/-- A primer3 oracle mock: zero primer pairs below window size 70, one fully
ideal pair at 70 and beyond. -/
def mockPrimer3Out (w : Nat) : String :=
  if w < 70 then
    "SEQUENCE_TEMPLATE=ACGT\nSEQUENCE_TARGET=1,1\nPRIMER_PAIR_NUM_RETURNED=0\n=\n"
  else
    "SEQUENCE_TEMPLATE=AACCGGTTAACCGGTT\nSEQUENCE_TARGET=1,1\nPRIMER_PAIR_NUM_RETURNED=1\nPRIMER_LEFT_0_SEQUENCE=GACCAGGACAGGACATAT\nPRIMER_RIGHT_0_SEQUENCE=GTGGATGGTAGTGGACAGT\nPRIMER_LEFT_0=0,18\nPRIMER_RIGHT_0=120,19\nPRIMER_LEFT_0_TM=60.0\nPRIMER_RIGHT_0_TM=60.0\nPRIMER_LEFT_0_GC_PERCENT=50.0\nPRIMER_RIGHT_0_GC_PERCENT=50.0\nPRIMER_PAIR_0_PRODUCT_SIZE=16\n=\n"

/-- A specificity-oracle mock: every candidate gets exactly one match. -/
def mockAnnotate (_w : Nat) (cs : List Candidate) : List Candidate :=
  cs.map (fun c => { c with ispcr_count := 1 })

/-- The candidate the mock oracle produces at window size 70. -/
def cMock70 : Candidate :=
  { left_primer := "GACCAGGACAGGACATAT", right_primer := "GTGGATGGTAGTGGACAGT",
    left_primer_loc := "0,18", right_primer_loc := "120,19",
    left_tm := "60.0", right_tm := "60.0",
    left_primer_gc := "50.0", right_primer_gc := "50.0",
    product_size := "16", product_loc := "0,16",
    product := "AACCGGTTAACCGGTT", sequence := "AACCGGTTAACCGGTT",
    ispcr_count := 1 }

/-- A primer3 oracle mock whose window-40 output is missing the expected key
`PRIMER_LEFT_0_SEQUENCE` (it announces one returned pair but carries no pair
fields); at 50 and beyond it behaves like `mockPrimer3Out 70`. -/
def mockMissingKeyOut (w : Nat) : String :=
  if w = 40 then
    "SEQUENCE_TEMPLATE=ACGT\nSEQUENCE_TARGET=1,1\nPRIMER_PAIR_NUM_RETURNED=1\n=\n"
  else mockPrimer3Out 70

/-! ### Helper lemmas -/

/-- Every window size present in `primer3_settings_file_dict` is at most 90. -/
theorem settingsLookup_le_90 (r : Nat) (s : String) (h : settingsLookup r = some s) :
    r ≤ 90 := by
  cases hf : primer3_settings_file_dict.find? (fun p => p.1 == r) with
  | none => simp [settingsLookup, hf] at h
  | some a =>
    have ha : a.1 = r := by simpa using List.find?_some hf
    have hmem : a ∈ primer3_settings_file_dict := List.mem_of_find?_eq_some hf
    fin_cases hmem <;> omega

/-- The head of a filtered list is the first element satisfying the test. -/
theorem head?_filter_eq_find? (p : Candidate → Bool) (l : List Candidate) :
    (l.filter p).head? = l.find? p := by
  induction l with
  | nil => rfl
  | cons a t ih =>
    by_cases h : p a
    · simp [List.filter_cons, h, List.find?_cons_of_pos]
    · simp [List.filter_cons, h, List.find?_cons_of_neg, ih]

/-- A code test that returned `true` pins down the qualifier result. -/
theorem resIs_true_elim (r : Except String (Option Nat)) (code : Option Nat)
    (h : resIs r code = true) : r = .ok code := by
  cases r with
  | error e => simp [resIs] at h
  | ok c => simp [resIs] at h; rw [h]

/-- Accumulator characterisation of the classification loop: when no
qualifier call raises, the loop returns the first IDEAL candidate, else the
head of the accumulated-plus-new acceptable candidates. -/
theorem select_go (l acc : List Candidate)
    (h : ∀ c ∈ l, (checkPrimer3Result c).isOk = true) :
    getTopPrimersSelect l acc =
      match l.find? (fun c => resIs (checkPrimer3Result c) CODE_IDEAL) with
      | some w => .ok (some w)
      | none =>
        .ok ((acc ++ l.filter (fun c => resIs (checkPrimer3Result c) CODE_ACCEPTABLE)).head?) := by
  induction l generalizing acc with
  | nil => simp [getTopPrimersSelect]
  | cons c rest ih =>
    have hc := h c (by simp)
    cases hcc : checkPrimer3Result c with
    | error e => rw [hcc] at hc; simp [Except.isOk, Except.toBool] at hc
    | ok code =>
      have hrest : ∀ d ∈ rest, (checkPrimer3Result d).isOk = true := by
        intro d hd; exact h d (by simp [hd])
      by_cases h1 : code = CODE_IDEAL
      · subst h1
        simp [getTopPrimersSelect, hcc, List.find?_cons_of_pos, resIs]
      · by_cases h2 : code = CODE_ACCEPTABLE
        · subst h2
          have hfneg : resIs (checkPrimer3Result c) CODE_IDEAL = false := by
            simp [resIs, hcc, CODE_IDEAL, CODE_ACCEPTABLE]
          have hfpos : resIs (checkPrimer3Result c) CODE_ACCEPTABLE = true := by
            simp [resIs, hcc]
          simp only [getTopPrimersSelect, hcc]
          rw [if_neg (show ¬((CODE_ACCEPTABLE : Option Nat) = CODE_IDEAL) by
            simp [CODE_IDEAL, CODE_ACCEPTABLE])]
          simp only [eq_self_iff_true, if_true, ite_true]
          rw [ih (acc ++ [c]) hrest]
          rw [List.find?_cons_of_neg _ (by simp [hfneg])]
          cases hf : rest.find? (fun d => resIs (checkPrimer3Result d) CODE_IDEAL) with
          | some w => simp
          | none =>
            simp [List.filter_cons, hfpos]
        · have hfneg1 : resIs (checkPrimer3Result c) CODE_IDEAL = false := by
            simp [resIs, hcc]; intro hh; exact absurd hh h1
          have hfneg2 : resIs (checkPrimer3Result c) CODE_ACCEPTABLE = false := by
            simp [resIs, hcc]; intro hh; exact absurd hh h2
          simp only [getTopPrimersSelect, hcc]
          rw [if_neg h1, if_neg h2]
          rw [ih acc hrest]
          rw [List.find?_cons_of_neg _ (by simp [hfneg1]),
            List.filter_cons_of_neg (by simp [hfneg2])]

/-- The controller never invokes the oracle at the sentinel window size:
100 never appears in the call trace. -/
theorem trace_no_100 (N : Nat) : ∀ (r : Nat) (po : Nat → String)
    (an : Nat → List Candidate → List Candidate), 100 - r ≤ N →
    100 ∉ (getTopPrimers po an r).2 := by
  induction N with
  | zero =>
    intro r po an hr
    rw [getTopPrimers]
    by_cases h100 : r = 100
    · simp [h100]
    · cases hs : settingsLookup r with
      | none => simp [h100, hs]
      | some s => exact absurd (settingsLookup_le_90 r s hs) (by omega)
  | succ N ih =>
    intro r po an hr
    rw [getTopPrimers]
    by_cases h100 : r = 100
    · simp [h100]
    · simp only [h100, if_false, ite_false]
      cases hs : settingsLookup r with
      | none => simp
      | some s =>
        have h90 := settingsLookup_le_90 r s hs
        cases hp : parsePrimer3Results (po r) with
        | error e => simp [hp]; omega
        | ok ps =>
          cases hsel : getTopPrimersSelect (an r ps) [] with
          | error e => simp [hp, hsel]; omega
          | ok sel =>
            cases sel with
            | some best => simp [hp, hsel]; omega
            | none =>
              simp only [hp, hsel, List.mem_cons, not_or]
              exact ⟨by omega, ih (r + 10) po an (by omega)⟩

/-- The call trace is an arithmetic progression with step 10 starting at the
initial window size: every failed round widens the window by exactly 10. -/
theorem trace_step_10 (N : Nat) : ∀ (r : Nat) (po : Nat → String)
    (an : Nat → List Candidate → List Candidate), 100 - r ≤ N →
    (getTopPrimers po an r).2 =
      List.range' r (getTopPrimers po an r).2.length 10 := by
  induction N with
  | zero =>
    intro r po an hr
    rw [getTopPrimers]
    by_cases h100 : r = 100
    · simp [h100]
    · cases hs : settingsLookup r with
      | none => simp [h100, hs]
      | some s => exact absurd (settingsLookup_le_90 r s hs) (by omega)
  | succ N ih =>
    intro r po an hr
    rw [getTopPrimers]
    by_cases h100 : r = 100
    · simp [h100]
    · simp only [h100, if_false, ite_false]
      cases hs : settingsLookup r with
      | none => simp
      | some s =>
        have h90 := settingsLookup_le_90 r s hs
        cases hp : parsePrimer3Results (po r) with
        | error e => simp [hp, List.range']
        | ok ps =>
          cases hsel : getTopPrimersSelect (an r ps) [] with
          | error e => simp [hp, hsel, List.range']
          | ok sel =>
            cases sel with
            | some best => simp [hp, hsel, List.range']
            | none =>
              simp only [hp, hsel, List.length_cons, List.range', List.cons.injEq, true_and]
              exact ih (r + 10) po an (by omega)

/-- Round at window 40 of the mock scenario: no pairs, search continues. -/
theorem run40 : getTopPrimers mockPrimer3Out mockAnnotate 40 =
    ((getTopPrimers mockPrimer3Out mockAnnotate 50).1,
      40 :: (getTopPrimers mockPrimer3Out mockAnnotate 50).2) := by
  rw [getTopPrimers]; with_unfolding_all rfl

/-- Round at window 50 of the mock scenario: no pairs, search continues. -/
theorem run50 : getTopPrimers mockPrimer3Out mockAnnotate 50 =
    ((getTopPrimers mockPrimer3Out mockAnnotate 60).1,
      50 :: (getTopPrimers mockPrimer3Out mockAnnotate 60).2) := by
  rw [getTopPrimers]; with_unfolding_all rfl

/-- Round at window 60 of the mock scenario: no pairs, search continues. -/
theorem run60 : getTopPrimers mockPrimer3Out mockAnnotate 60 =
    ((getTopPrimers mockPrimer3Out mockAnnotate 70).1,
      60 :: (getTopPrimers mockPrimer3Out mockAnnotate 70).2) := by
  rw [getTopPrimers]; with_unfolding_all rfl

set_option maxRecDepth 8192 in
/-- Round at window 70 of the mock scenario: the ideal pair is found. -/
theorem run70 : getTopPrimers mockPrimer3Out mockAnnotate 70 =
    (.ok (some cMock70), [70]) := by
  rw [getTopPrimers]; with_unfolding_all rfl

/-- Valid bases map to their Watson-Crick complements. -/
theorem compList_ok (l : List Char) (h : ∀ c ∈ l, c = 'A' ∨ c = 'C' ∨ c = 'G' ∨ c = 'T') :
    compList l = .ok (l.map (fun c =>
      if c = 'A' then 'T' else if c = 'T' then 'A' else if c = 'C' then 'G' else 'C')) := by
  induction l with
  | nil => rfl
  | cons c t ih =>
    have hc := h c (by simp)
    have ht : ∀ d ∈ t, d = 'A' ∨ d = 'C' ∨ d = 'G' ∨ d = 'T' :=
      fun d hd => h d (by simp [hd])
    rcases hc with h1 | h1 | h1 | h1 <;> subst h1 <;>
      simp [compList, compBase, ih ht]

/-- A base outside the map makes the complement loop raise `KeyError`. -/
theorem compList_error (l : List Char) (h : ∃ c ∈ l, compBase c = none) :
    ∃ msg, compList l = .error msg := by
  induction l with
  | nil => simp at h
  | cons c t ih =>
    rcases h with ⟨d, hd, hnone⟩
    rcases List.mem_cons.mp hd with rfl | hdt
    · exact ⟨"KeyError: " ++ String.mk [d], by simp [compList, hnone]⟩
    · cases hcb : compBase c with
      | none => exact ⟨"KeyError: " ++ String.mk [c], by simp [compList, hcb]⟩
      | some x =>
        obtain ⟨msg, hmsg⟩ := ih ⟨d, hdt, hnone⟩
        exact ⟨msg, by simp [compList, hcb, hmsg]⟩

/-- A character on which `compBase` is defined is one of the four bases. -/
theorem compBase_some_cases (d : Char) (h : compBase d ≠ none) :
    d = 'A' ∨ d = 'C' ∨ d = 'G' ∨ d = 'T' := by
  by_cases h1 : d = 'A'
  · exact Or.inl h1
  by_cases h2 : d = 'T'
  · exact Or.inr (Or.inr (Or.inr h2))
  by_cases h3 : d = 'C'
  · exact Or.inr (Or.inl h3)
  by_cases h4 : d = 'G'
  · exact Or.inr (Or.inr (Or.inl h4))
  exact absurd (by simp [compBase, h1, h2, h3, h4]) h

/-- Inversion of the qualifier: a CODE_IDEAL result forces every
disqualifying rule to have passed and every downgrade condition to have
been false — the specificity count is 1, no masked base occurs in the
3' ends, no self-binding 4-mer hit exists, the amplicon GC% lies inside
both bands, the homopolymer maxima are within both ceilings, and the
melting temperatures and primer lengths are within the ideal ranges. -/
theorem check_ideal_inversion (c : Candidate)
    (h : checkPrimer3Result c = .ok CODE_IDEAL) :
    c.ispcr_count = 1 ∧
    anyLower ((pyTakeLast LOW_COMPLEXITY_CHECK_N c.left_primer) ++
      (pyTakeLast LOW_COMPLEXITY_CHECK_N c.right_primer)).data = false ∧
    (∃ lc rc, complementary_sequence (pyTakeLast 4 c.left_primer) = .ok lc ∧
      complementary_sequence (pyTake 4 (pyReverse c.right_primer)) = .ok rc ∧
      pyIn lc (pyUpper (pyReverse c.right_primer)) = false ∧
      pyIn rc (pyUpper c.left_primer) = false ∧
      pyIn lc (pyUpper c.left_primer) = false ∧
      pyIn rc (pyUpper (pyReverse c.right_primer)) = false ∧
      pyIn lc (pyUpper (pyReverse (RIGHT_TAG ++ c.right_primer))) = false ∧
      pyIn rc (pyUpper (LEFT_TAG ++ c.left_primer)) = false) ∧
    (∃ g, get_gc_pct c.product = some g ∧
      ¬(g < ACCEPTABLE_AMPLICON_GC_MIN ∨ g > ACCEPTABLE_AMPLICON_GC_MAX) ∧
      ¬(g < IDEAL_AMPLICON_GC_MIN ∨ g > IDEAL_AMPLICON_GC_MAX)) ∧
    (∃ pl pr, get_poly_max c.left_primer = some pl ∧
      get_poly_max c.right_primer = some pr ∧
      ¬(max pl pr > ACCEPTABLE_HOMOPOLY_MAX) ∧ ¬(max pl pr > IDEAL_HOMOPOLY_MAX)) ∧
    (∃ lt, pyFloat c.left_tm = .ok lt ∧ ¬(lt < IDEAL_TM_MIN ∨ lt > IDEAL_TM_MAX)) ∧
    (∃ rt, pyFloat c.right_tm = .ok rt ∧ ¬(rt < IDEAL_TM_MIN ∨ rt > IDEAL_TM_MAX)) ∧
    ¬(c.left_primer.length < IDEAL_PRIMER_LEN_MIN ∨
      c.left_primer.length > IDEAL_PRIMER_LEN_MAX) ∧
    ¬(c.right_primer.length < IDEAL_PRIMER_LEN_MIN ∨
      c.right_primer.length > IDEAL_PRIMER_LEN_MAX) := by
  cases hploc : pyInt ((pySplit ',' c.product_loc).headD "") with
  | error e =>
    have hc : checkPrimer3Result c = .error e := by
      simp only [checkPrimer3Result]; rw [hploc]
    rw [hc] at h; exact Except.noConfusion h
  | ok n =>
  cases hpsize : pyInt c.product_size with
  | error e =>
    have hc : checkPrimer3Result c = .error e := by
      simp only [checkPrimer3Result]; rw [hploc, hpsize]
    rw [hc] at h; exact Except.noConfusion h
  | ok m =>
  by_cases hspec : c.ispcr_count = 1
  case neg =>
    have hc : checkPrimer3Result c = .ok CODE_NQ := by
      simp only [checkPrimer3Result]; rw [hploc, hpsize]; simp [hspec]
    rw [hc] at h
    exact absurd (Except.ok.inj h) (by simp [CODE_NQ, CODE_IDEAL])
  case pos =>
  by_cases hlow : anyLower ((pyTakeLast LOW_COMPLEXITY_CHECK_N c.left_primer).data ++
      (pyTakeLast LOW_COMPLEXITY_CHECK_N c.right_primer).data) = true
  case pos =>
    have hc : checkPrimer3Result c = .ok CODE_NQ := by
      simp only [checkPrimer3Result]; rw [hploc, hpsize]; simp [hspec, hlow]
    rw [hc] at h
    exact absurd (Except.ok.inj h) (by simp [CODE_NQ, CODE_IDEAL])
  case neg =>
  rw [Bool.not_eq_true] at hlow
  cases hcl : complementary_sequence (pyTakeLast 4 c.left_primer) with
  | error e =>
    have hc : checkPrimer3Result c = .error e := by
      simp only [checkPrimer3Result]; rw [hploc, hpsize]; simp [hspec, hlow, hcl]
    rw [hc] at h; exact Except.noConfusion h
  | ok lc =>
  cases hcr : complementary_sequence (pyTake 4 (pyReverse c.right_primer)) with
  | error e =>
    have hc : checkPrimer3Result c = .error e := by
      simp only [checkPrimer3Result]; rw [hploc, hpsize]; simp [hspec, hlow, hcl, hcr]
    rw [hc] at h; exact Except.noConfusion h
  | ok rc =>
  by_cases hb1 : pyIn lc (pyUpper (pyReverse c.right_primer)) = true
  case pos =>
    have hc : checkPrimer3Result c = .ok CODE_NQ := by
      simp only [checkPrimer3Result]; rw [hploc, hpsize]
      simp [hspec, hlow, hcl, hcr, hb1]
    rw [hc] at h
    exact absurd (Except.ok.inj h) (by simp [CODE_NQ, CODE_IDEAL])
  case neg =>
  rw [Bool.not_eq_true] at hb1
  by_cases hb2 : pyIn rc (pyUpper c.left_primer) = true
  case pos =>
    have hc : checkPrimer3Result c = .ok CODE_NQ := by
      simp only [checkPrimer3Result]; rw [hploc, hpsize]
      simp [hspec, hlow, hcl, hcr, hb1, hb2]
    rw [hc] at h
    exact absurd (Except.ok.inj h) (by simp [CODE_NQ, CODE_IDEAL])
  case neg =>
  rw [Bool.not_eq_true] at hb2
  by_cases hb3 : pyIn lc (pyUpper c.left_primer) = true
  case pos =>
    have hc : checkPrimer3Result c = .ok CODE_NQ := by
      simp only [checkPrimer3Result]; rw [hploc, hpsize]
      simp [hspec, hlow, hcl, hcr, hb1, hb2, hb3]
    rw [hc] at h
    exact absurd (Except.ok.inj h) (by simp [CODE_NQ, CODE_IDEAL])
  case neg =>
  rw [Bool.not_eq_true] at hb3
  by_cases hb4 : pyIn rc (pyUpper (pyReverse c.right_primer)) = true
  case pos =>
    have hc : checkPrimer3Result c = .ok CODE_NQ := by
      simp only [checkPrimer3Result]; rw [hploc, hpsize]
      simp [hspec, hlow, hcl, hcr, hb1, hb2, hb3, hb4]
    rw [hc] at h
    exact absurd (Except.ok.inj h) (by simp [CODE_NQ, CODE_IDEAL])
  case neg =>
  rw [Bool.not_eq_true] at hb4
  by_cases hb5 : pyIn lc (pyUpper (pyReverse (RIGHT_TAG ++ c.right_primer))) = true
  case pos =>
    have hc : checkPrimer3Result c = .ok CODE_NQ := by
      simp only [checkPrimer3Result]; rw [hploc, hpsize]
      simp [hspec, hlow, hcl, hcr, hb1, hb2, hb3, hb4, hb5]
    rw [hc] at h
    exact absurd (Except.ok.inj h) (by simp [CODE_NQ, CODE_IDEAL])
  case neg =>
  rw [Bool.not_eq_true] at hb5
  by_cases hb6 : pyIn rc (pyUpper (LEFT_TAG ++ c.left_primer)) = true
  case pos =>
    have hc : checkPrimer3Result c = .ok CODE_NQ := by
      simp only [checkPrimer3Result]; rw [hploc, hpsize]
      simp [hspec, hlow, hcl, hcr, hb1, hb2, hb3, hb4, hb5, hb6]
    rw [hc] at h
    exact absurd (Except.ok.inj h) (by simp [CODE_NQ, CODE_IDEAL])
  case neg =>
  rw [Bool.not_eq_true] at hb6
  cases hgc : get_gc_pct c.product with
  | none =>
    have hc : checkPrimer3Result c = .error "ZeroDivisionError: float division by zero" := by
      simp only [checkPrimer3Result]; rw [hploc, hpsize]
      simp [hspec, hlow, hcl, hcr, hb1, hb2, hb3, hb4, hb5, hb6, hgc]
    rw [hc] at h; exact Except.noConfusion h
  | some g =>
  by_cases hga : (g < ACCEPTABLE_AMPLICON_GC_MIN ∨ g > ACCEPTABLE_AMPLICON_GC_MAX)
  case pos =>
    have hc : checkPrimer3Result c = .ok CODE_NQ := by
      simp only [checkPrimer3Result]; rw [hploc, hpsize]
      simp [hspec, hlow, hcl, hcr, hb1, hb2, hb3, hb4, hb5, hb6, hgc, hga]
    rw [hc] at h
    exact absurd (Except.ok.inj h) (by simp [CODE_NQ, CODE_IDEAL])
  case neg =>
  by_cases hgi : (g < IDEAL_AMPLICON_GC_MIN ∨ g > IDEAL_AMPLICON_GC_MAX)
  case pos =>
    have hc : checkPrimer3Result c ≠ .ok CODE_IDEAL := by
      simp only [checkPrimer3Result]; rw [hploc, hpsize]
      simp [hspec, hlow, hcl, hcr, hb1, hb2, hb3, hb4, hb5, hb6, hgc, hga, hgi,
        CODE_IDEAL, CODE_ACCEPTABLE, CODE_NQ]
      repeat' split
      all_goals simp
    exact absurd h hc
  case neg =>
  cases hpl : get_poly_max c.left_primer with
  | none =>
    have hc : checkPrimer3Result c = .error "IndexError: string index out of range" := by
      simp only [checkPrimer3Result]; rw [hploc, hpsize]
      simp [hspec, hlow, hcl, hcr, hb1, hb2, hb3, hb4, hb5, hb6, hgc, hga, hpl]
    rw [hc] at h; exact Except.noConfusion h
  | some pl =>
  cases hpr : get_poly_max c.right_primer with
  | none =>
    have hc : checkPrimer3Result c = .error "IndexError: string index out of range" := by
      simp only [checkPrimer3Result]; rw [hploc, hpsize]
      simp [hspec, hlow, hcl, hcr, hb1, hb2, hb3, hb4, hb5, hb6, hgc, hga, hpl, hpr]
    rw [hc] at h; exact Except.noConfusion h
  | some pr =>
  by_cases hpa : max pl pr > ACCEPTABLE_HOMOPOLY_MAX
  case pos =>
    have hc : checkPrimer3Result c = .ok CODE_NQ := by
      simp only [checkPrimer3Result]; rw [hploc, hpsize]
      simp [hspec, hlow, hcl, hcr, hb1, hb2, hb3, hb4, hb5, hb6, hgc, hga, hpl, hpr, hpa]
    rw [hc] at h
    exact absurd (Except.ok.inj h) (by simp [CODE_NQ, CODE_IDEAL])
  case neg =>
  by_cases hpi : max pl pr > IDEAL_HOMOPOLY_MAX
  case pos =>
    have hc : checkPrimer3Result c ≠ .ok CODE_IDEAL := by
      simp only [checkPrimer3Result]; rw [hploc, hpsize]
      simp [hspec, hlow, hcl, hcr, hb1, hb2, hb3, hb4, hb5, hb6, hgc, hga, hgi,
        hpl, hpr, hpa, hpi, CODE_IDEAL, CODE_ACCEPTABLE, CODE_NQ]
      repeat' split
      all_goals simp
    exact absurd h hc
  case neg =>
  cases hlt : pyFloat c.left_tm with
  | error e =>
    have hc : checkPrimer3Result c = .error e := by
      simp only [checkPrimer3Result]; rw [hploc, hpsize]
      simp [hspec, hlow, hcl, hcr, hb1, hb2, hb3, hb4, hb5, hb6, hgc, hga, hpl, hpr,
        hpa, hlt]
    rw [hc] at h; exact Except.noConfusion h
  | ok lt =>
  by_cases htl : (lt < IDEAL_TM_MIN ∨ lt > IDEAL_TM_MAX)
  case pos =>
    have hc : checkPrimer3Result c ≠ .ok CODE_IDEAL := by
      simp only [checkPrimer3Result]; rw [hploc, hpsize]
      simp [hspec, hlow, hcl, hcr, hb1, hb2, hb3, hb4, hb5, hb6, hgc, hga, hgi,
        hpl, hpr, hpa, hpi, hlt, htl, CODE_IDEAL, CODE_ACCEPTABLE, CODE_NQ]
      repeat' split
      all_goals simp
    exact absurd h hc
  case neg =>
  cases hrt : pyFloat c.right_tm with
  | error e =>
    have hc : checkPrimer3Result c = .error e := by
      simp only [checkPrimer3Result]; rw [hploc, hpsize]
      simp [hspec, hlow, hcl, hcr, hb1, hb2, hb3, hb4, hb5, hb6, hgc, hga, hpl, hpr,
        hpa, hlt, hrt]
    rw [hc] at h; exact Except.noConfusion h
  | ok rt =>
  by_cases htr : (rt < IDEAL_TM_MIN ∨ rt > IDEAL_TM_MAX)
  case pos =>
    have hc : checkPrimer3Result c ≠ .ok CODE_IDEAL := by
      simp only [checkPrimer3Result]; rw [hploc, hpsize]
      simp [hspec, hlow, hcl, hcr, hb1, hb2, hb3, hb4, hb5, hb6, hgc, hga, hgi,
        hpl, hpr, hpa, hpi, hlt, htl, hrt, htr, CODE_IDEAL, CODE_ACCEPTABLE, CODE_NQ]
    exact absurd h hc
  case neg =>
  by_cases hsl : (c.left_primer.length < IDEAL_PRIMER_LEN_MIN ∨
      c.left_primer.length > IDEAL_PRIMER_LEN_MAX)
  case pos =>
    have hc : checkPrimer3Result c ≠ .ok CODE_IDEAL := by
      simp only [checkPrimer3Result]; rw [hploc, hpsize]
      simp [hspec, hlow, hcl, hcr, hb1, hb2, hb3, hb4, hb5, hb6, hgc, hga, hgi,
        hpl, hpr, hpa, hpi, hlt, htl, hrt, htr, hsl, CODE_IDEAL, CODE_ACCEPTABLE, CODE_NQ]
    exact absurd h hc
  case neg =>
  by_cases hsr : (c.right_primer.length < IDEAL_PRIMER_LEN_MIN ∨
      c.right_primer.length > IDEAL_PRIMER_LEN_MAX)
  case pos =>
    have hc : checkPrimer3Result c ≠ .ok CODE_IDEAL := by
      simp only [checkPrimer3Result]; rw [hploc, hpsize]
      simp [hspec, hlow, hcl, hcr, hb1, hb2, hb3, hb4, hb5, hb6, hgc, hga, hgi,
        hpl, hpr, hpa, hpi, hlt, htl, hrt, htr, hsl, hsr,
        CODE_IDEAL, CODE_ACCEPTABLE, CODE_NQ]
    exact absurd h hc
  case neg =>
  exact ⟨hspec, by rw [String.data_append]; exact hlow,
    ⟨lc, rc, rfl, rfl, hb1, hb2, hb3, hb4, hb5, hb6⟩,
    ⟨g, rfl, hga, hgi⟩,
    ⟨pl, pr, rfl, rfl, hpa, hpi⟩,
    ⟨lt, rfl, htl⟩, ⟨rt, rfl, htr⟩, hsl, hsr⟩

/-! ### Claim theorems -/

/-- C1: for every candidate whose `ispcr_count` differs from 1 (0, 2 or
more), `check_primer3_result` returns `CODE_NQ`, whatever the primers, GC,
homopolymer runs, melting temperatures and lengths are; the specificity
check runs before all other rules (only the two integer conversions of
lines 135-136, which are extractions rather than checks, precede it). -/
theorem C1_specificity_not_one_disqualifies (c : Candidate) (n m : Int)
    (h1 : pyInt ((pySplit ',' c.product_loc).headD "") = .ok n)
    (h2 : pyInt c.product_size = .ok m)
    (h : c.ispcr_count ≠ 1) :
    checkPrimer3Result c = .ok CODE_NQ := by
  unfold checkPrimer3Result
  rw [h1, h2]
  simp [h]

/-- Witness for C1: a concrete candidate with `ispcr_count = 2` and every
other field ideal is NOT_QUALIFIED. -/
theorem C1_specificity_not_one_disqualifies_witness :
    checkPrimer3Result cIspcr2 = .ok CODE_NQ :=
  C1_specificity_not_one_disqualifies cIspcr2 0 16 rfl rfl (by decide)

/-- C2: rules are applied in a fixed order where a disqualifier returns
`CODE_NQ` at once while a downgrade only lowers the running code to
`CODE_ACCEPTABLE` and continues; hence a candidate that passes the earlier
rules, triggers the GC downgrade (amplicon GC% in [25,30)) and also trips
the later homopolymer disqualifier (run longer than 5) ends NOT_QUALIFIED,
never ACCEPTABLE. -/
theorem C2_downgrade_then_disqualifier_yields_nq (c : Candidate) (n m : Int)
    (lc rc : String) (g : ℚ) (pl pr : Nat)
    (h1 : pyInt ((pySplit ',' c.product_loc).headD "") = .ok n)
    (h2 : pyInt c.product_size = .ok m)
    (hspec : c.ispcr_count = 1)
    (hlow : anyLower ((pyTakeLast LOW_COMPLEXITY_CHECK_N c.left_primer) ++
        (pyTakeLast LOW_COMPLEXITY_CHECK_N c.right_primer)).data = false)
    (hcl : complementary_sequence (pyTakeLast 4 c.left_primer) = .ok lc)
    (hcr : complementary_sequence (pyTake 4 (pyReverse c.right_primer)) = .ok rc)
    (hb1 : pyIn lc (pyUpper (pyReverse c.right_primer)) = false)
    (hb2 : pyIn rc (pyUpper c.left_primer) = false)
    (hb3 : pyIn lc (pyUpper c.left_primer) = false)
    (hb4 : pyIn rc (pyUpper (pyReverse c.right_primer)) = false)
    (hb5 : pyIn lc (pyUpper (pyReverse (RIGHT_TAG ++ c.right_primer))) = false)
    (hb6 : pyIn rc (pyUpper (LEFT_TAG ++ c.left_primer)) = false)
    (hgc : get_gc_pct c.product = some g)
    (hg1 : 25 ≤ g) (hg2 : g < 30)
    (hpl : get_poly_max c.left_primer = some pl)
    (hpr : get_poly_max c.right_primer = some pr)
    (hpoly : 5 < max pl pr) :
    checkPrimer3Result c = .ok CODE_NQ := by
  simp only [checkPrimer3Result]
  rw [h1, h2, hcl, hcr, hgc, hpl, hpr]
  have hga : ¬(g < ACCEPTABLE_AMPLICON_GC_MIN ∨ g > ACCEPTABLE_AMPLICON_GC_MAX) := by
    simp only [ACCEPTABLE_AMPLICON_GC_MIN, ACCEPTABLE_AMPLICON_GC_MAX]
    push_neg
    constructor
    · exact hg1
    · linarith
  simp [hspec, hlow, hb1, hb2, hb3, hb4, hb5, hb6, hga, ACCEPTABLE_HOMOPOLY_MAX, hpoly]

/-- Witness for C2: a concrete candidate with amplicon GC% = 28 (downgrade)
and a homopolymer run of 6 in the left primer (disqualifier) is
NOT_QUALIFIED. -/
theorem C2_downgrade_then_disqualifier_yields_nq_witness :
    checkPrimer3Result cDownDisq = .ok CODE_NQ :=
  C2_downgrade_then_disqualifier_yields_nq cDownDisq 0 16 "TATA" "ACTG" 28 6 2
    rfl rfl rfl rfl rfl rfl rfl rfl rfl rfl rfl rfl
    (by with_unfolding_all rfl) (by decide) (by decide) rfl rfl (by decide)

/-- C3: both directions of the IDEAL characterisation.  Forward: a
candidate with exactly one in-silico-PCR match, no lowercase base in the
last 10 bases of either primer, no self-binding 4-mer hit (partner, self
or adapter-tag), amplicon GC% = 50, maximum homopolymer run 2, both
melting temperatures in [55,65] and both primer lengths in [18,25] is
classified IDEAL.  Converse: IDEAL is returned only when no rule
downgraded or disqualified — a CODE_IDEAL result forces the specificity
count to be 1, no masked 3'-end base, no self-binding hit, the amplicon
GC% inside both bands, homopolymer maxima within both ceilings, and
melting temperatures and primer lengths within the ideal ranges. -/
theorem C3_all_ideal_conditions_yield_ideal :
    (∀ (c : Candidate) (n m : Int) (lc rc : String) (pl pr : Nat) (lt rt : ℚ),
      pyInt ((pySplit ',' c.product_loc).headD "") = .ok n →
      pyInt c.product_size = .ok m →
      c.ispcr_count = 1 →
      anyLower ((pyTakeLast LOW_COMPLEXITY_CHECK_N c.left_primer) ++
        (pyTakeLast LOW_COMPLEXITY_CHECK_N c.right_primer)).data = false →
      complementary_sequence (pyTakeLast 4 c.left_primer) = .ok lc →
      complementary_sequence (pyTake 4 (pyReverse c.right_primer)) = .ok rc →
      pyIn lc (pyUpper (pyReverse c.right_primer)) = false →
      pyIn rc (pyUpper c.left_primer) = false →
      pyIn lc (pyUpper c.left_primer) = false →
      pyIn rc (pyUpper (pyReverse c.right_primer)) = false →
      pyIn lc (pyUpper (pyReverse (RIGHT_TAG ++ c.right_primer))) = false →
      pyIn rc (pyUpper (LEFT_TAG ++ c.left_primer)) = false →
      get_gc_pct c.product = some 50 →
      get_poly_max c.left_primer = some pl →
      get_poly_max c.right_primer = some pr →
      max pl pr = 2 →
      pyFloat c.left_tm = .ok lt → 55 ≤ lt → lt ≤ 65 →
      pyFloat c.right_tm = .ok rt → 55 ≤ rt → rt ≤ 65 →
      18 ≤ c.left_primer.length → c.left_primer.length ≤ 25 →
      18 ≤ c.right_primer.length → c.right_primer.length ≤ 25 →
      checkPrimer3Result c = .ok CODE_IDEAL) ∧
    (∀ c : Candidate, checkPrimer3Result c = .ok CODE_IDEAL →
      c.ispcr_count = 1 ∧
      anyLower ((pyTakeLast LOW_COMPLEXITY_CHECK_N c.left_primer) ++
        (pyTakeLast LOW_COMPLEXITY_CHECK_N c.right_primer)).data = false ∧
      (∃ lc rc, complementary_sequence (pyTakeLast 4 c.left_primer) = .ok lc ∧
        complementary_sequence (pyTake 4 (pyReverse c.right_primer)) = .ok rc ∧
        pyIn lc (pyUpper (pyReverse c.right_primer)) = false ∧
        pyIn rc (pyUpper c.left_primer) = false ∧
        pyIn lc (pyUpper c.left_primer) = false ∧
        pyIn rc (pyUpper (pyReverse c.right_primer)) = false ∧
        pyIn lc (pyUpper (pyReverse (RIGHT_TAG ++ c.right_primer))) = false ∧
        pyIn rc (pyUpper (LEFT_TAG ++ c.left_primer)) = false) ∧
      (∃ g, get_gc_pct c.product = some g ∧
        ¬(g < ACCEPTABLE_AMPLICON_GC_MIN ∨ g > ACCEPTABLE_AMPLICON_GC_MAX) ∧
        ¬(g < IDEAL_AMPLICON_GC_MIN ∨ g > IDEAL_AMPLICON_GC_MAX)) ∧
      (∃ pl pr, get_poly_max c.left_primer = some pl ∧
        get_poly_max c.right_primer = some pr ∧
        ¬(max pl pr > ACCEPTABLE_HOMOPOLY_MAX) ∧ ¬(max pl pr > IDEAL_HOMOPOLY_MAX)) ∧
      (∃ lt, pyFloat c.left_tm = .ok lt ∧ ¬(lt < IDEAL_TM_MIN ∨ lt > IDEAL_TM_MAX)) ∧
      (∃ rt, pyFloat c.right_tm = .ok rt ∧ ¬(rt < IDEAL_TM_MIN ∨ rt > IDEAL_TM_MAX)) ∧
      ¬(c.left_primer.length < IDEAL_PRIMER_LEN_MIN ∨
        c.left_primer.length > IDEAL_PRIMER_LEN_MAX) ∧
      ¬(c.right_primer.length < IDEAL_PRIMER_LEN_MIN ∨
        c.right_primer.length > IDEAL_PRIMER_LEN_MAX)) := by
  constructor
  · intro c n m lc rc pl pr lt rt h1 h2 hspec hlow hcl hcr hb1 hb2 hb3 hb4 hb5 hb6
      hgc hpl hpr hpoly hlt hlt1 hlt2 hrt hrt1 hrt2 hll hlu hrl hru
    simp only [checkPrimer3Result]
    rw [h1, h2, hcl, hcr, hgc, hpl, hpr, hlt, hrt]
    have hga : ¬((50:ℚ) < ACCEPTABLE_AMPLICON_GC_MIN ∨ (50:ℚ) > ACCEPTABLE_AMPLICON_GC_MAX) := by
      simp only [ACCEPTABLE_AMPLICON_GC_MIN, ACCEPTABLE_AMPLICON_GC_MAX]
      push_neg
      norm_num
    have hgi : ¬((50:ℚ) < IDEAL_AMPLICON_GC_MIN ∨ (50:ℚ) > IDEAL_AMPLICON_GC_MAX) := by
      simp only [IDEAL_AMPLICON_GC_MIN, IDEAL_AMPLICON_GC_MAX]
      push_neg
      norm_num
    have htl : ¬(lt < IDEAL_TM_MIN ∨ lt > IDEAL_TM_MAX) := by
      simp only [IDEAL_TM_MIN, IDEAL_TM_MAX]; push_neg; exact ⟨hlt1, hlt2⟩
    have htr : ¬(rt < IDEAL_TM_MIN ∨ rt > IDEAL_TM_MAX) := by
      simp only [IDEAL_TM_MIN, IDEAL_TM_MAX]; push_neg; exact ⟨hrt1, hrt2⟩
    have hsl : ¬(c.left_primer.length < IDEAL_PRIMER_LEN_MIN ∨
        c.left_primer.length > IDEAL_PRIMER_LEN_MAX) := by
      simp only [IDEAL_PRIMER_LEN_MIN, IDEAL_PRIMER_LEN_MAX]; omega
    have hsr : ¬(c.right_primer.length < IDEAL_PRIMER_LEN_MIN ∨
        c.right_primer.length > IDEAL_PRIMER_LEN_MAX) := by
      simp only [IDEAL_PRIMER_LEN_MIN, IDEAL_PRIMER_LEN_MAX]; omega
    simp only [String.data_append] at hlow
    simp [hspec, hlow, hb1, hb2, hb3, hb4, hb5, hb6, hga, hgi, htl, htr, hsl, hsr, hpoly,
      ACCEPTABLE_HOMOPOLY_MAX, IDEAL_HOMOPOLY_MAX]
  · exact check_ideal_inversion

/-- Witness for C3: the concrete all-ideal candidate is classified IDEAL
by the forward direction, and the converse applied to it recovers its
unit specificity count. -/
theorem C3_all_ideal_conditions_yield_ideal_witness :
    checkPrimer3Result cIdeal = .ok CODE_IDEAL ∧ cIdeal.ispcr_count = 1 := by
  refine ⟨?_, ?_⟩
  · exact C3_all_ideal_conditions_yield_ideal.1 cIdeal 0 16 "TATA" "ACTG" 2 2 60 60
      rfl rfl rfl rfl rfl rfl rfl rfl rfl rfl rfl rfl
      (by with_unfolding_all rfl) rfl rfl rfl
      (by with_unfolding_all rfl) (by decide) (by decide)
      (by with_unfolding_all rfl) (by decide) (by decide)
      (by decide) (by decide) (by decide) (by decide)
  · exact (C3_all_ideal_conditions_yield_ideal.2 cIdeal (by with_unfolding_all rfl)).1

/-- C4: for a candidate passing the specificity, complexity and
self-binding rules, with amplicon GC% equal to any `g`: whenever `g` is
outside the acceptable 25-75 band the qualifier returns NOT_QUALIFIED
whatever the remaining fields hold, and whenever `g` is inside the
acceptable band but outside the ideal 30-75 band the result is downgraded
and is never IDEAL. -/
theorem C4_gc_disqualify_and_downgrade (c : Candidate) (n m : Int) (lc rc : String) (g : ℚ)
    (h1 : pyInt ((pySplit ',' c.product_loc).headD "") = .ok n)
    (h2 : pyInt c.product_size = .ok m)
    (hspec : c.ispcr_count = 1)
    (hlow : anyLower ((pyTakeLast LOW_COMPLEXITY_CHECK_N c.left_primer) ++
        (pyTakeLast LOW_COMPLEXITY_CHECK_N c.right_primer)).data = false)
    (hcl : complementary_sequence (pyTakeLast 4 c.left_primer) = .ok lc)
    (hcr : complementary_sequence (pyTake 4 (pyReverse c.right_primer)) = .ok rc)
    (hb1 : pyIn lc (pyUpper (pyReverse c.right_primer)) = false)
    (hb2 : pyIn rc (pyUpper c.left_primer) = false)
    (hb3 : pyIn lc (pyUpper c.left_primer) = false)
    (hb4 : pyIn rc (pyUpper (pyReverse c.right_primer)) = false)
    (hb5 : pyIn lc (pyUpper (pyReverse (RIGHT_TAG ++ c.right_primer))) = false)
    (hb6 : pyIn rc (pyUpper (LEFT_TAG ++ c.left_primer)) = false)
    (hgc : get_gc_pct c.product = some g) :
    ((g < ACCEPTABLE_AMPLICON_GC_MIN ∨ g > ACCEPTABLE_AMPLICON_GC_MAX) →
      checkPrimer3Result c = .ok CODE_NQ) ∧
    (¬(g < ACCEPTABLE_AMPLICON_GC_MIN ∨ g > ACCEPTABLE_AMPLICON_GC_MAX) →
      (g < IDEAL_AMPLICON_GC_MIN ∨ g > IDEAL_AMPLICON_GC_MAX) →
      checkPrimer3Result c ≠ .ok CODE_IDEAL) := by
  simp only [String.data_append] at hlow
  constructor
  · intro hga
    simp only [checkPrimer3Result]
    rw [h1, h2, hcl, hcr, hgc]
    simp [hspec, hlow, hb1, hb2, hb3, hb4, hb5, hb6, hga]
  · intro hga hgi
    simp only [checkPrimer3Result]
    rw [h1, h2, hcl, hcr, hgc]
    simp [hspec, hlow, hb1, hb2, hb3, hb4, hb5, hb6, hga, hgi, CODE_IDEAL,
      CODE_ACCEPTABLE, CODE_NQ]
    repeat' split
    all_goals simp

/-- Witness for C4: with every other field ideal, the concrete candidate
with amplicon GC% = 20 is NOT_QUALIFIED and the one with GC% = 28 is not
IDEAL. -/
theorem C4_gc_disqualify_and_downgrade_witness :
    checkPrimer3Result cGc20 = .ok CODE_NQ ∧
    checkPrimer3Result cGc28 ≠ .ok CODE_IDEAL :=
  ⟨(C4_gc_disqualify_and_downgrade cGc20 0 16 "TATA" "ACTG" 20
      rfl rfl rfl rfl rfl rfl rfl rfl rfl rfl rfl rfl
      (by with_unfolding_all rfl)).1 (by decide),
   (C4_gc_disqualify_and_downgrade cGc28 0 16 "TATA" "ACTG" 28
      rfl rfl rfl rfl rfl rfl rfl rfl rfl rfl rfl rfl
      (by with_unfolding_all rfl)).2 (by decide) (by decide)⟩

/-- C5: when no qualifier call raises, the classification loop of
`get_top_primers` returns exactly the first IDEAL candidate in oracle
order (without comparing later candidates), else the first ACCEPTABLE one,
and a returned candidate is never NOT_QUALIFIED. -/
theorem C5_first_ideal_else_first_acceptable (l : List Candidate)
    (h : ∀ c ∈ l, (checkPrimer3Result c).isOk = true) :
    getTopPrimersSelect l [] = .ok (firstIdealElseFirstAcceptable l) ∧
    (∀ w, getTopPrimersSelect l [] = .ok (some w) →
      checkPrimer3Result w ≠ .ok CODE_NQ) := by
  have hgo := select_go l [] h
  constructor
  · rw [hgo]
    unfold firstIdealElseFirstAcceptable
    cases hf : l.find? (fun c => resIs (checkPrimer3Result c) CODE_IDEAL) with
    | some w => rfl
    | none => simp [head?_filter_eq_find?]
  · intro w hw
    rw [hgo] at hw
    cases hf : l.find? (fun c => resIs (checkPrimer3Result c) CODE_IDEAL) with
    | some v =>
      rw [hf] at hw
      simp only [Except.ok.injEq, Option.some.injEq] at hw
      subst hw
      have hp := List.find?_some hf
      rw [resIs_true_elim _ _ hp]
      simp [CODE_NQ, CODE_IDEAL]
    | none =>
      rw [hf] at hw
      simp only [List.nil_append, head?_filter_eq_find?, Except.ok.injEq] at hw
      have hp := List.find?_some hw
      rw [resIs_true_elim _ _ hp]
      simp [CODE_NQ, CODE_ACCEPTABLE]

/-- Witness for C5: in a batch holding an ACCEPTABLE candidate before an
IDEAL one, the loop returns the IDEAL candidate. -/
theorem C5_first_ideal_else_first_acceptable_witness :
    getTopPrimersSelect [cGc28, cIdeal] [] = .ok (some cIdeal) := by
  have h := (C5_first_ideal_else_first_acceptable [cGc28, cIdeal]
    (by with_unfolding_all decide)).1
  rw [h]
  with_unfolding_all rfl

/-- C6: the search-window controller never calls the oracle at the
sentinel size (window 100 returns the no-result outcome with an empty call
trace, and 100 never appears in any trace), it widens the window by
exactly 10 after every unsuccessful round (every trace is an arithmetic
progression with step 10), and with the mock oracle that yields no
qualifying candidate below window 70 the run from 40 makes exactly the
four calls 40, 50, 60, 70 and succeeds at 70. -/
theorem C6_window_widening_and_sentinel :
    (∀ po an, getTopPrimers po an 100 = (.ok none, [])) ∧
    (∀ po an r, 100 ∉ (getTopPrimers po an r).2) ∧
    (∀ po an r, (getTopPrimers po an r).2 =
      List.range' r (getTopPrimers po an r).2.length 10) ∧
    getTopPrimers mockPrimer3Out mockAnnotate 40 = (.ok (some cMock70), [40, 50, 60, 70]) := by
  refine ⟨?_, ?_, ?_, ?_⟩
  · intro po an; rw [getTopPrimers]; rfl
  · intro po an r; exact trace_no_100 (100 - r) r po an le_rfl
  · intro po an r; exact trace_step_10 (100 - r) r po an le_rfl
  · rw [run40, run50, run60, run70]

set_option maxRecDepth 8192 in
/-- Counterexample to C7: the parse failure at window 40 (missing key
`PRIMER_LEFT_0_SEQUENCE`) is a structured `KeyError` naming the key, but
the controller does NOT treat it as "no candidates returned": the whole
run aborts with the error after the single call at window 40, even though
retrying at window 50 would have produced an ideal candidate. -/
theorem C7_counterexample :
    parsePrimer3Results (mockMissingKeyOut 40) =
      .error "KeyError: PRIMER_LEFT_0_SEQUENCE" ∧
    getTopPrimers mockMissingKeyOut mockAnnotate 40 =
      (.error "KeyError: PRIMER_LEFT_0_SEQUENCE", [40]) ∧
    (getTopPrimers mockMissingKeyOut mockAnnotate 50).1 = .ok (some cMock70) := by
  refine ⟨rfl, ?_, ?_⟩
  · rw [getTopPrimers]; with_unfolding_all rfl
  · rw [getTopPrimers]; with_unfolding_all rfl

/-- C7 as amended: a missing expected key in the oracle output propagates
from the parser as a structured error identifying the missing key, and the
controller does not recover from it: the error aborts the search for that
locus with no window widening and no retry (the trace stops at the failing
window). -/
theorem C7_parse_error_aborts_search (po : Nat → String)
    (an : Nat → List Candidate → List Candidate)
    (r : Nat) (s e : String) (h100 : r ≠ 100) (hs : settingsLookup r = some s)
    (hp : parsePrimer3Results (po r) = .error e) :
    getTopPrimers po an r = (.error e, [r]) := by
  rw [getTopPrimers, if_neg h100]
  split
  · rename_i heq
    rw [heq] at hs
    exact absurd hs (by simp)
  · simp [hp]

/-- Witness for the amended C7: the mock missing-key run at window 40
aborts with the `KeyError` naming the missing key. -/
theorem C7_parse_error_aborts_search_witness :
    getTopPrimers mockMissingKeyOut mockAnnotate 40 =
      (.error "KeyError: PRIMER_LEFT_0_SEQUENCE", [40]) :=
  C7_parse_error_aborts_search mockMissingKeyOut mockAnnotate 40
    "primer3_settings_250-260.cnf" "KeyError: PRIMER_LEFT_0_SEQUENCE"
    (by decide) rfl rfl

/-- Counterexample to C8: the claim says the adapter-tag concatenation is
reversed in the LEFT_TAG case (the check of `LEFT_TAG ++ left_primer`).
In the code it is the RIGHT_TAG concatenation that is reversed (line 168)
while `LEFT_TAG ++ left_primer` is checked unreversed (line 170): here the
right primer's 3'-end complement 4-mer `AGCC` does occur in the reversal of
`LEFT_TAG ++ left_primer`, yet the candidate is classified IDEAL, not
NOT_QUALIFIED as the claim would require. -/
theorem C8_counterexample :
    complementary_sequence (pyTake 4 (pyReverse cC8.right_primer)) = .ok "AGCC" ∧
    pyIn "AGCC" (pyUpper (pyReverse (LEFT_TAG ++ cC8.left_primer))) = true ∧
    checkPrimer3Result cC8 = .ok CODE_IDEAL := by
  refine ⟨rfl, rfl, ?_⟩
  with_unfolding_all rfl

/-- C8 as amended: in the adapter-tag rule the reversal is applied in the
RIGHT_TAG case — the left primer's 3'-end complement 4-mer must not occur
in the reversal of `RIGHT_TAG ++ right_primer`, and the right primer's
3'-end complement 4-mer must not occur in the unreversed
`LEFT_TAG ++ left_primer` (both uppercased); a candidate passing the
earlier rules that contains such an occurrence is NOT_QUALIFIED. -/
theorem C8_adapter_tag_rule (c : Candidate) (n m : Int) (lc rc : String)
    (h1 : pyInt ((pySplit ',' c.product_loc).headD "") = .ok n)
    (h2 : pyInt c.product_size = .ok m)
    (hspec : c.ispcr_count = 1)
    (hlow : anyLower ((pyTakeLast LOW_COMPLEXITY_CHECK_N c.left_primer) ++
        (pyTakeLast LOW_COMPLEXITY_CHECK_N c.right_primer)).data = false)
    (hcl : complementary_sequence (pyTakeLast 4 c.left_primer) = .ok lc)
    (hcr : complementary_sequence (pyTake 4 (pyReverse c.right_primer)) = .ok rc)
    (hb1 : pyIn lc (pyUpper (pyReverse c.right_primer)) = false)
    (hb2 : pyIn rc (pyUpper c.left_primer) = false)
    (hb3 : pyIn lc (pyUpper c.left_primer) = false)
    (hb4 : pyIn rc (pyUpper (pyReverse c.right_primer)) = false)
    (htag : pyIn lc (pyUpper (pyReverse (RIGHT_TAG ++ c.right_primer))) = true ∨
        pyIn rc (pyUpper (LEFT_TAG ++ c.left_primer)) = true) :
    checkPrimer3Result c = .ok CODE_NQ := by
  simp only [String.data_append] at hlow
  simp only [checkPrimer3Result]
  rw [h1, h2, hcl, hcr]
  rcases htag with h5 | h6
  · simp [hspec, hlow, hb1, hb2, hb3, hb4, h5]
  · by_cases h5 : pyIn lc (pyUpper (pyReverse (RIGHT_TAG ++ c.right_primer))) = true
    · simp [hspec, hlow, hb1, hb2, hb3, hb4, h5]
    · simp [hspec, hlow, hb1, hb2, hb3, hb4, h5, h6]

/-- Witness for the amended C8: a candidate whose right primer ends in
`TCGG` has complement 4-mer `CCGA`, which occurs unreversed in
`LEFT_TAG ++ left_primer`; it is NOT_QUALIFIED. -/
theorem C8_adapter_tag_rule_witness :
    checkPrimer3Result cC8w = .ok CODE_NQ :=
  C8_adapter_tag_rule cC8w 0 16 "TATA" "CCGA"
    rfl rfl rfl rfl rfl rfl rfl rfl rfl rfl (Or.inr rfl)

/-- Counterexample to C9: `complementary_sequence` uppercases its input
before the map lookup, so the lowercase input "a" — whose only character
lies outside {A,C,G,T} — succeeds with "T" instead of failing as the claim
requires. -/
theorem C9_counterexample :
    complementary_sequence "a" = .ok "T" ∧
    ¬('a' = 'A' ∨ 'a' = 'C' ∨ 'a' = 'G' ∨ 'a' = 'T') := ⟨rfl, by decide⟩

/-- C9 as amended: `complementary_sequence` performs the strict
Watson-Crick complement (A↔T, C↔G) after uppercasing its input: it
succeeds — with the complement of the uppercased input — on every input
whose characters all uppercase into {A,C,G,T} (so lowercase a/c/g/t are
accepted), and it fails with an invalid-base `KeyError` exactly when some
character still lies outside {A,C,G,T} after uppercasing. -/
theorem C9_complement_after_upper (s : String) :
    ((∀ c ∈ s.data, compBase c.toUpper ≠ none) →
      complementary_sequence s = .ok (String.mk ((pyUpper s).data.map (fun c =>
        if c = 'A' then 'T' else if c = 'T' then 'A' else if c = 'C' then 'G' else 'C')))) ∧
    ((∃ c ∈ s.data, compBase c.toUpper = none) ↔
      ∃ msg, complementary_sequence s = .error msg) := by
  have hup : (pyUpper s).data = s.data.map Char.toUpper := rfl
  have hsucc : (∀ c ∈ s.data, compBase c.toUpper ≠ none) →
      complementary_sequence s = .ok (String.mk ((pyUpper s).data.map (fun c =>
        if c = 'A' then 'T' else if c = 'T' then 'A' else if c = 'C' then 'G' else 'C'))) := by
    intro h
    unfold complementary_sequence
    have hvalid : ∀ d ∈ (pyUpper s).data, d = 'A' ∨ d = 'C' ∨ d = 'G' ∨ d = 'T' := by
      intro d hd
      rw [hup] at hd
      obtain ⟨c, hc, rfl⟩ := List.mem_map.mp hd
      exact compBase_some_cases _ (h c hc)
    rw [compList_ok _ hvalid]
  refine ⟨hsucc, ?_, ?_⟩
  · rintro ⟨c, hc, hnone⟩
    unfold complementary_sequence
    obtain ⟨msg, hmsg⟩ := compList_error (pyUpper s).data
      ⟨c.toUpper, by rw [hup]; exact List.mem_map_of_mem _ hc, hnone⟩
    rw [hmsg]
    exact ⟨msg, rfl⟩
  · rintro ⟨msg, hmsg⟩
    by_contra hno
    push_neg at hno
    rw [hsucc hno] at hmsg
    exact Except.noConfusion hmsg

/-- Witness for the amended C9: the lowercase input "acgt" and the
uppercase input "ACGT" both complement to "TGCA", and "ACGTN" fails. -/
theorem C9_complement_after_upper_witness :
    complementary_sequence "acgt" = .ok "TGCA" ∧
    complementary_sequence "ACGT" = .ok "TGCA" ∧
    (∃ msg, complementary_sequence "ACGTN" = .error msg) :=
  ⟨((C9_complement_after_upper "acgt").1 (by decide)).trans rfl,
   ((C9_complement_after_upper "ACGT").1 (by decide)).trans rfl,
   (C9_complement_after_upper "ACGTN").2.mp ⟨'N', by decide⟩⟩

/-- C10: the amplicon-GC band comparisons are strict, so the endpoints
count as inside: for a candidate passing the earlier rules with every later
rule ideal, GC% exactly 25 is not disqualified (only downgraded to
ACCEPTABLE), GC% exactly 75 is neither disqualified nor downgraded
(IDEAL), and GC% exactly 30 is not downgraded (IDEAL). -/
theorem C10_gc_endpoints_inside_bands (c : Candidate) (n m : Int)
    (lc rc : String) (pl pr : Nat) (lt rt : ℚ)
    (h1 : pyInt ((pySplit ',' c.product_loc).headD "") = .ok n)
    (h2 : pyInt c.product_size = .ok m)
    (hspec : c.ispcr_count = 1)
    (hlow : anyLower ((pyTakeLast LOW_COMPLEXITY_CHECK_N c.left_primer) ++
        (pyTakeLast LOW_COMPLEXITY_CHECK_N c.right_primer)).data = false)
    (hcl : complementary_sequence (pyTakeLast 4 c.left_primer) = .ok lc)
    (hcr : complementary_sequence (pyTake 4 (pyReverse c.right_primer)) = .ok rc)
    (hb1 : pyIn lc (pyUpper (pyReverse c.right_primer)) = false)
    (hb2 : pyIn rc (pyUpper c.left_primer) = false)
    (hb3 : pyIn lc (pyUpper c.left_primer) = false)
    (hb4 : pyIn rc (pyUpper (pyReverse c.right_primer)) = false)
    (hb5 : pyIn lc (pyUpper (pyReverse (RIGHT_TAG ++ c.right_primer))) = false)
    (hb6 : pyIn rc (pyUpper (LEFT_TAG ++ c.left_primer)) = false)
    (hpl : get_poly_max c.left_primer = some pl)
    (hpr : get_poly_max c.right_primer = some pr)
    (hpoly : max pl pr ≤ 4)
    (hlt : pyFloat c.left_tm = .ok lt) (hlt1 : 55 ≤ lt) (hlt2 : lt ≤ 65)
    (hrt : pyFloat c.right_tm = .ok rt) (hrt1 : 55 ≤ rt) (hrt2 : rt ≤ 65)
    (hll : 18 ≤ c.left_primer.length) (hlu : c.left_primer.length ≤ 25)
    (hrl : 18 ≤ c.right_primer.length) (hru : c.right_primer.length ≤ 25) :
    (get_gc_pct c.product = some 25 → checkPrimer3Result c = .ok CODE_ACCEPTABLE) ∧
    (get_gc_pct c.product = some 75 → checkPrimer3Result c = .ok CODE_IDEAL) ∧
    (get_gc_pct c.product = some 30 → checkPrimer3Result c = .ok CODE_IDEAL) := by
  simp only [String.data_append] at hlow
  have htl : ¬(lt < IDEAL_TM_MIN ∨ lt > IDEAL_TM_MAX) := by
    simp only [IDEAL_TM_MIN, IDEAL_TM_MAX]; push_neg; exact ⟨hlt1, hlt2⟩
  have htr : ¬(rt < IDEAL_TM_MIN ∨ rt > IDEAL_TM_MAX) := by
    simp only [IDEAL_TM_MIN, IDEAL_TM_MAX]; push_neg; exact ⟨hrt1, hrt2⟩
  have hsl : ¬(c.left_primer.length < IDEAL_PRIMER_LEN_MIN ∨
      c.left_primer.length > IDEAL_PRIMER_LEN_MAX) := by
    simp only [IDEAL_PRIMER_LEN_MIN, IDEAL_PRIMER_LEN_MAX]; omega
  have hsr : ¬(c.right_primer.length < IDEAL_PRIMER_LEN_MIN ∨
      c.right_primer.length > IDEAL_PRIMER_LEN_MAX) := by
    simp only [IDEAL_PRIMER_LEN_MIN, IDEAL_PRIMER_LEN_MAX]; omega
  have hpa : ¬(max pl pr > ACCEPTABLE_HOMOPOLY_MAX) := by
    simp only [ACCEPTABLE_HOMOPOLY_MAX]; omega
  have hpi : ¬(max pl pr > IDEAL_HOMOPOLY_MAX) := by
    simp only [IDEAL_HOMOPOLY_MAX]; omega
  refine ⟨?_, ?_, ?_⟩ <;> intro hgc <;> simp only [checkPrimer3Result] <;>
    rw [h1, h2, hcl, hcr, hgc, hpl, hpr, hlt, hrt]
  · have hga : ¬((25:ℚ) < ACCEPTABLE_AMPLICON_GC_MIN ∨ (25:ℚ) > ACCEPTABLE_AMPLICON_GC_MAX) := by
      simp only [ACCEPTABLE_AMPLICON_GC_MIN, ACCEPTABLE_AMPLICON_GC_MAX]; push_neg; norm_num
    have hgi : ((25:ℚ) < IDEAL_AMPLICON_GC_MIN ∨ (25:ℚ) > IDEAL_AMPLICON_GC_MAX) := by
      left; simp only [IDEAL_AMPLICON_GC_MIN]; norm_num
    simp [hspec, hlow, hb1, hb2, hb3, hb4, hb5, hb6, hga, hgi, htl, htr, hsl, hsr, hpa, hpi]
  · have hga : ¬((75:ℚ) < ACCEPTABLE_AMPLICON_GC_MIN ∨ (75:ℚ) > ACCEPTABLE_AMPLICON_GC_MAX) := by
      simp only [ACCEPTABLE_AMPLICON_GC_MIN, ACCEPTABLE_AMPLICON_GC_MAX]; push_neg; norm_num
    have hgi : ¬((75:ℚ) < IDEAL_AMPLICON_GC_MIN ∨ (75:ℚ) > IDEAL_AMPLICON_GC_MAX) := by
      simp only [IDEAL_AMPLICON_GC_MIN, IDEAL_AMPLICON_GC_MAX]; push_neg; norm_num
    simp [hspec, hlow, hb1, hb2, hb3, hb4, hb5, hb6, hga, hgi, htl, htr, hsl, hsr, hpa, hpi]
  · have hga : ¬((30:ℚ) < ACCEPTABLE_AMPLICON_GC_MIN ∨ (30:ℚ) > ACCEPTABLE_AMPLICON_GC_MAX) := by
      simp only [ACCEPTABLE_AMPLICON_GC_MIN, ACCEPTABLE_AMPLICON_GC_MAX]; push_neg; norm_num
    have hgi : ¬((30:ℚ) < IDEAL_AMPLICON_GC_MIN ∨ (30:ℚ) > IDEAL_AMPLICON_GC_MAX) := by
      simp only [IDEAL_AMPLICON_GC_MIN, IDEAL_AMPLICON_GC_MAX]; push_neg; norm_num
    simp [hspec, hlow, hb1, hb2, hb3, hb4, hb5, hb6, hga, hgi, htl, htr, hsl, hsr, hpa, hpi]

/-- Witness for C10: with every other field ideal, GC% = 25 gives
ACCEPTABLE while GC% = 75 and GC% = 30 give IDEAL. -/
theorem C10_gc_endpoints_inside_bands_witness :
    checkPrimer3Result cGc25 = .ok CODE_ACCEPTABLE ∧
    checkPrimer3Result cGc75 = .ok CODE_IDEAL ∧
    checkPrimer3Result cGc30 = .ok CODE_IDEAL :=
  ⟨(C10_gc_endpoints_inside_bands cGc25 0 16 "TATA" "ACTG" 2 2 60 60
      rfl rfl rfl rfl rfl rfl rfl rfl rfl rfl rfl rfl rfl rfl (by decide)
      (by with_unfolding_all rfl) (by decide) (by decide)
      (by with_unfolding_all rfl) (by decide) (by decide)
      (by decide) (by decide) (by decide) (by decide)).1 (by with_unfolding_all rfl),
   (C10_gc_endpoints_inside_bands cGc75 0 16 "TATA" "ACTG" 2 2 60 60
      rfl rfl rfl rfl rfl rfl rfl rfl rfl rfl rfl rfl rfl rfl (by decide)
      (by with_unfolding_all rfl) (by decide) (by decide)
      (by with_unfolding_all rfl) (by decide) (by decide)
      (by decide) (by decide) (by decide) (by decide)).2.1 (by with_unfolding_all rfl),
   (C10_gc_endpoints_inside_bands cGc30 0 16 "TATA" "ACTG" 2 2 60 60
      rfl rfl rfl rfl rfl rfl rfl rfl rfl rfl rfl rfl rfl rfl (by decide)
      (by with_unfolding_all rfl) (by decide) (by decide)
      (by with_unfolding_all rfl) (by decide) (by decide)
      (by decide) (by decide) (by decide) (by decide)).2.2 (by with_unfolding_all rfl)⟩

end CrisprPrimer
